import Mathlib

/-!
# Verification of the CREMA external-metrics autoscaling core

Shallow embedding of the two-stage control loop of the Cloud Run external
metrics autoscaling repository (metric-provider in Go, scaler in Java),
together with theorems settling the frozen claims about it.

Conventions:
* Java `double` / Go `float64` metric and target values are modelled as `ℚ`
  (exact real-valued arithmetic); machine integers as `ℤ` or `ℕ`.
* Timestamps (`java.time.Instant`) are modelled as integral seconds `ℤ`.
* Fallible code returns `Except String`; RPC calls, scaler reads and other
  external collaborators are passed in as explicit oracle functions.
* Concurrent fan-out (one goroutine per scaler) is modelled as a sequential
  map over the builders; the claims below do not depend on completion order.
-/

namespace Crema

/-- Timestamps in whole seconds (`java.time.Instant` / `time.Time`). -/
abbrev Time := Int

/-! ## Scaler-stage data model (Java protobuf messages)

`Advanced.ScalerConfig.Behavior.Scaling.Policy`, `Scaling`, `Behavior`,
`ScalerConfig` and `Metric` from the scale RPC, as read by `Scaler.java`.
Proto3 scalar fields default to zero values; submessage getters return the
default instance, so the Lean structures carry plain fields with defaults.
The `Metric.target` oneof is modelled as the two optional fields that the
Java code reads through `hasTargetValue`/`getTargetValue` and
`hasTargetAverageValue`/`getTargetAverageValue`. -/

/-- `Policy.Type`: `PERCENT` or `INSTANCES` (enum value 0 is `TYPE_UNSPECIFIED`). -/
inductive PolicyType where
  | typeUnspecified
  | percent
  | instances
deriving DecidableEq, Repr

/-- `Scaling.SelectPolicy` enum; proto default is `MAX`. -/
inductive SelectPolicy where
  | max
  | min
  | disabled
deriving DecidableEq, Repr

/-- `Advanced.ScalerConfig.Behavior.Scaling.Policy`. -/
structure Policy where
  ptype : PolicyType := .typeUnspecified
  value : Int := 0
  periodSeconds : Int := 0
deriving DecidableEq, Repr

/-- `Advanced.ScalerConfig.Behavior.Scaling`: one direction's rules. -/
structure Scaling where
  stabilizationWindowSeconds : Int := 0
  policies : List Policy := []
  selectPolicy : SelectPolicy := .max
deriving DecidableEq, Repr

/-- `Advanced.ScalerConfig.Behavior`. -/
structure Behavior where
  scaleUp : Scaling := {}
  scaleDown : Scaling := {}
deriving DecidableEq, Repr

/-- `Advanced.ScalerConfig`: replica bounds plus behavior. -/
structure ScalerConfig where
  minInstances : Int := 0
  maxInstances : Int := 0
  behavior : Behavior := {}
deriving DecidableEq, Repr

/-- One metric entry of the scale RPC, as consumed by `Scaler.scale`. -/
structure Metric where
  value : ℚ := 0
  targetValue : Option ℚ := none
  targetAverageValue : Option ℚ := none
deriving DecidableEq, Repr

/-- `ScaledObjectMetrics`: the per-workload slice of the scale request. -/
structure ScaledObjectMetrics where
  scalerConfig : ScalerConfig := {}
  metrics : List Metric := []
deriving DecidableEq, Repr

/-- `ScalingStatus` returned by `Scaler.scale`. -/
inductive ScalingStatus where
  | succeeded
  | failed
deriving DecidableEq, Repr

/-- `WorkloadInfoParser.WorkloadType`. -/
inductive WorkloadType where
  | service
  | workerpool
deriving DecidableEq, Repr

/-! ## Recommendation formulas (`TargetValueScaling.java`, `TargetAverageValueScaling.java`) -/

/-- `TargetValueScaling.makeRecommendation`: `(int) Math.ceil(max(n, 1) * V / t)`,
returning `n` when the target is zero. -/
def TargetValueScaling.makeRecommendation (currentValue targetValue : ℚ)
    (currentInstanceCount : Int) : Int :=
  if targetValue = 0 then currentInstanceCount
  else ⌈(max currentInstanceCount 1 : ℚ) * currentValue / targetValue⌉

/-- `TargetAverageValueScaling.makeRecommendation`: `(int) Math.ceil(V / t)`,
returning `n` when the target is zero. -/
def TargetAverageValueScaling.makeRecommendation (currentValue targetValue : ℚ)
    (currentInstanceCount : Int) : Int :=
  if targetValue = 0 then currentInstanceCount
  else ⌈currentValue / targetValue⌉

/-- `opt.isSome && opt.get > 0`, the guard pattern
`metric.hasX() && metric.getX() > 0` used in `Scaler.scale`. -/
def posTarget : Option ℚ → Bool
  | some t => decide (0 < t)
  | none => false

/-- The per-metric branch of the `Scaler.scale` loop: average-value targets
take the first branch, value targets the second, otherwise the metric is
skipped (`continue`). -/
def metricRecommendation (currentInstanceCount : Int) (m : Metric) : Option Int :=
  if posTarget m.targetAverageValue then
    some (TargetAverageValueScaling.makeRecommendation m.value
      (m.targetAverageValue.getD 0) currentInstanceCount)
  else if posTarget m.targetValue then
    some (TargetValueScaling.makeRecommendation m.value
      (m.targetValue.getD 0) currentInstanceCount)
  else
    none

/-- The `for (Metric metric : ...)` loop of `Scaler.scale`: starting from
`unboundedRecommendation = 0` and `hasValidTrigger = false`, each contributing
metric raises the running maximum and sets the flag. -/
def unboundedLoop (currentInstanceCount : Int) (metrics : List Metric) : Int × Bool :=
  metrics.foldl
    (fun acc m =>
      match metricRecommendation currentInstanceCount m with
      | some r => (max acc.1 r, true)
      | none => acc)
    (0, false)

/-- The per-trigger recommendations of the metrics that contribute. -/
def contributingRecommendations (currentInstanceCount : Int) (metrics : List Metric) : List Int :=
  metrics.filterMap (metricRecommendation currentInstanceCount)

/-! ## Scaling stabilizer

The `ScalingStabilizer` class is not among the repository's source files
(only `ScalingStabilizerTest` and its caller `Scaler` are), so it is
modelled from the specification. -/

/-- One retained `(timestamp, previous instances, recommended instances)`
entry of the stabilizer ring. -/
structure ScaleEvent where
  time : Time
  prev : Int
  recommended : Int
deriving DecidableEq, Repr

/-- Modelled from the spec: the per-workload stabilizer state, a time-ordered
sequence of `(t, prev, rec)` entries (spec section 3, "Stabilizer record").
The missing source is `ScalingStabilizer.java`. -/
structure ScalingStabilizer where
  events : List ScaleEvent
deriving DecidableEq, Repr

/-- Modelled from the spec: the constructor `ScalingStabilizer(int)` observed
in the tests; it seeds the ring with one entry carrying the initial instance
count at construction time. -/
def ScalingStabilizer.mk0 (t0 : Time) (initialInstanceCount : Int) : ScalingStabilizer :=
  ⟨[⟨t0, initialInstanceCount, initialInstanceCount⟩]⟩

/-- Modelled from the spec: the instance count a single policy permits,
starting from `prev`, in the scale-up direction. `Percent`:
`ceil(prev * (1 + v/100))`; `Instances`: `prev + v`. -/
def policyPermittedUp (p : Policy) (prev : Int) : Int :=
  match p.ptype with
  | .percent => ⌈(prev : ℚ) * (1 + (p.value : ℚ) / 100)⌉
  | .instances => prev + p.value
  | .typeUnspecified => prev

/-- Modelled from the spec: the instance count a single policy permits,
starting from `prev`, in the scale-down direction. `Percent`:
`floor(prev * (1 - v/100))`; `Instances`: `prev - v`. -/
def policyPermittedDown (p : Policy) (prev : Int) : Int :=
  match p.ptype with
  | .percent => ⌊(prev : ℚ) * (1 - (p.value : ℚ) / 100)⌋
  | .instances => prev - p.value
  | .typeUnspecified => prev

/-- Modelled from the spec: the entries a policy with period `p` retrieves at
query time `now`. The spec's section 4.7 words say `t >= now - p`, but its
own literal scenario 3 (section 8) and the repository's stabilizer test
require the boundary entry at exactly `now - p` to be excluded, so the
strict inequality is used. -/
def eventsWithinPeriod (events : List ScaleEvent) (now period : Time) : List ScaleEvent :=
  events.filter (fun e => now - period < e.time)

/-- Modelled from the spec: the candidate one policy produces for the
scale-up direction: the most extreme (largest) permitted count over the
retained entries within the policy period; when no entry falls within the
period the current instance count is used as the starting point. -/
def policyCandidateUp (events : List ScaleEvent) (now current : Int) (p : Policy) : Int :=
  match (eventsWithinPeriod events now p.periodSeconds).map
      (fun e => policyPermittedUp p e.prev) with
  | [] => policyPermittedUp p current
  | x :: xs => xs.foldl max x

/-- Modelled from the spec: the candidate one policy produces for the
scale-down direction: the most extreme (smallest) permitted count over the
retained entries within the policy period; when no entry falls within the
period the current instance count is used as the starting point. -/
def policyCandidateDown (events : List ScaleEvent) (now current : Int) (p : Policy) : Int :=
  match (eventsWithinPeriod events now p.periodSeconds).map
      (fun e => policyPermittedDown p e.prev) with
  | [] => policyPermittedDown p current
  | x :: xs => xs.foldl min x

/-- Modelled from the spec: the rate bound of the scale-up direction.
Candidates are combined by the select policy (`Max` = most permissive =
largest, `Min` = smallest); with no policies there is no rate constraint
(`none`). -/
def rateBoundUp (rules : Scaling) (events : List ScaleEvent) (now current : Int) : Option Int :=
  match rules.policies.map (policyCandidateUp events now current) with
  | [] => none
  | x :: xs =>
    match rules.selectPolicy with
    | .min => some (xs.foldl min x)
    | _ => some (xs.foldl max x)

/-- Modelled from the spec: the rate bound of the scale-down direction; the
select roles are inverted so that `Max` is still the most permissive
(smallest) candidate. -/
def rateBoundDown (rules : Scaling) (events : List ScaleEvent) (now current : Int) : Option Int :=
  match rules.policies.map (policyCandidateDown events now current) with
  | [] => none
  | x :: xs =>
    match rules.selectPolicy with
    | .min => some (xs.foldl max x)
    | _ => some (xs.foldl min x)

/-- Modelled from the spec: the scale-up stabilization-window bound: with a
zero window it is the unbounded recommendation; otherwise the minimum
recommendation among entries with `t >= now - W`, freezing at `current`
when no entry falls in the window. -/
def windowBoundUp (rules : Scaling) (events : List ScaleEvent)
    (now : Time) (current unbounded : Int) : Int :=
  if rules.stabilizationWindowSeconds = 0 then unbounded
  else
    match (events.filter
        (fun e => now - rules.stabilizationWindowSeconds ≤ e.time)).map ScaleEvent.recommended with
    | [] => current
    | x :: xs => xs.foldl min x

/-- Modelled from the spec: the scale-down stabilization-window bound: with a
zero window it is the unbounded recommendation; otherwise the maximum
recommendation among entries with `t >= now - W`, freezing at `current`
when no entry falls in the window. -/
def windowBoundDown (rules : Scaling) (events : List ScaleEvent)
    (now : Time) (current unbounded : Int) : Int :=
  if rules.stabilizationWindowSeconds = 0 then unbounded
  else
    match (events.filter
        (fun e => now - rules.stabilizationWindowSeconds ≤ e.time)).map ScaleEvent.recommended with
    | [] => current
    | x :: xs => xs.foldl max x

/-- Modelled from the spec: the scale-up direction bound
`min(max(unbounded, current), min(rate_bound, window_bound))`; a disabled
select policy freezes the direction at `current`. -/
def scaleUpBound (rules : Scaling) (events : List ScaleEvent)
    (now : Time) (current unbounded : Int) : Int :=
  if rules.selectPolicy = .disabled then current
  else
    let window := windowBoundUp rules events now current unbounded
    let limit :=
      match rateBoundUp rules events now current with
      | some r => min r window
      | none => window
    min (max unbounded current) limit

/-- Modelled from the spec: the scale-down direction bound
`max(min(unbounded, current), max(rate_bound, window_bound))`; a disabled
select policy freezes the direction at `current`. -/
def scaleDownBound (rules : Scaling) (events : List ScaleEvent)
    (now : Time) (current unbounded : Int) : Int :=
  if rules.selectPolicy = .disabled then current
  else
    let window := windowBoundDown rules events now current unbounded
    let limit :=
      match rateBoundDown rules events now current with
      | some r => max r window
      | none => window
    max (min unbounded current) limit

/-- Modelled from the spec: `ScalingStabilizer.getStabilizedRecommendation`:
scale-up from zero bypasses stabilization; otherwise the direction of the
unbounded recommendation relative to `current` selects the bound. -/
def ScalingStabilizer.getStabilizedRecommendation (s : ScalingStabilizer)
    (behavior : Behavior) (now : Time) (current unbounded : Int) : Int :=
  if current = 0 ∧ 0 < unbounded then unbounded
  else if current < unbounded then
    scaleUpBound behavior.scaleUp s.events now current unbounded
  else if unbounded < current then
    scaleDownBound behavior.scaleDown s.events now current unbounded
  else current

/-- Modelled from the spec: the retention bound, the maximum of the two
stabilization windows and the longest policy period. -/
def retentionBound (behavior : Behavior) : Int :=
  max (max behavior.scaleUp.stabilizationWindowSeconds
        behavior.scaleDown.stabilizationWindowSeconds)
    ((behavior.scaleUp.policies ++ behavior.scaleDown.policies).foldl
      (fun acc p => max acc p.periodSeconds) 0)

/-- Modelled from the spec: `ScalingStabilizer.markScaleEvent` appends
`(now, prev, new)` and lazily evicts entries older than the retention
bound. -/
def ScalingStabilizer.markScaleEvent (s : ScalingStabilizer) (behavior : Behavior)
    (now : Time) (prev new : Int) : ScalingStabilizer :=
  ⟨(s.events ++ [ScaleEvent.mk now prev new]).filter
    (fun e => now - retentionBound behavior ≤ e.time)⟩

/-! ## `Scaler.scale` (Scaler.java) -/

/-- `java.lang.Math.clamp(value, min, max)` (defined for `min <= max`). -/
def clamp (value lo hi : Int) : Int :=
  min (max value lo) hi

/-- `Scaler.getBoundedRecommendation`: stabilize, then clamp to the
configured replica bounds. -/
def Scaler.getBoundedRecommendation (currentInstanceCount unboundedRecommendation : Int)
    (scalingStabilizer : ScalingStabilizer) (scalerConfig : ScalerConfig)
    (now : Time) : Int :=
  clamp
    (scalingStabilizer.getStabilizedRecommendation scalerConfig.behavior now
      currentInstanceCount unboundedRecommendation)
    scalerConfig.minInstances scalerConfig.maxInstances

/-- The inputs `Scaler.scale` draws from its environment: the workload kind
parsed from the target name, the static configuration flag, the instance
count read from the control plane, the wall clock, and the per-workload
stabilizer found in (or lazily added to) the stabilizer map. -/
structure ScaleInput where
  workloadType : WorkloadType := .service
  useMinInstances : Bool := false
  currentInstanceCount : Int := 0
  now : Time := 0
  som : ScaledObjectMetrics := {}
  stabilizer : ScalingStabilizer := ⟨[]⟩

/-- The observable outcome of one `Scaler.scale` call: the returned status,
the instance count sent to the control plane (if any update was issued),
whether `markScaleEvent` ran, and the resulting stabilizer state. -/
structure ScaleOutcome where
  status : ScalingStatus
  update : Option Int
  marked : Bool
  stabilizer : ScalingStabilizer
deriving DecidableEq, Repr

/-- `Scaler.scale`: the scaling pass for a single scaled object. The
worker-pool/min-instances guard throws; an empty metrics list scales
straight to zero; otherwise the trigger loop, the stabilizer, the clamp and
the idempotence check run in source order. -/
def Scaler.scale (inp : ScaleInput) : Except String ScaleOutcome :=
  if inp.workloadType = .workerpool ∧ inp.useMinInstances then
    .error "USE_MIN_INSTANCES is not supported for worker pool workloads."
  else if inp.som.metrics.length = 0 then
    .ok ⟨.succeeded, some 0, false, inp.stabilizer⟩
  else
    let loop := unboundedLoop inp.currentInstanceCount inp.som.metrics
    if loop.2 = false then
      .ok ⟨.failed, none, false, inp.stabilizer⟩
    else
      let newInstanceCount :=
        Scaler.getBoundedRecommendation inp.currentInstanceCount loop.1
          inp.stabilizer inp.som.scalerConfig inp.now
      if newInstanceCount ≠ inp.currentInstanceCount then
        .ok ⟨.succeeded, some newInstanceCount, true,
          inp.stabilizer.markScaleEvent inp.som.scalerConfig.behavior inp.now
            inp.currentInstanceCount newInstanceCount⟩
      else
        .ok ⟨.succeeded, none, false, inp.stabilizer⟩

/-! ## Metric-provider configuration model (Go `api` package and KEDA types)

Only the fields the embedded functions read are carried. -/

/-- KEDA `AuthenticationRef`(`ScaledObjectAuthRef`): a named reference from a
trigger to a trigger authentication. -/
structure AuthenticationRef where
  name : String := ""
deriving DecidableEq, Repr, Inhabited

/-- KEDA `ScaleTargetRef`. -/
structure ScaleTargetRef where
  name : String := ""
deriving DecidableEq, Repr, Inhabited

/-- KEDA `ScaleTriggers`: one trigger of a scaled object. -/
structure Trigger where
  type : String := ""
  name : String := ""
  metadata : List (String × String) := []
  authenticationRef : Option AuthenticationRef := none
deriving DecidableEq, Repr, Inhabited

/-- `autoscalingv2.HPAScalingPolicyType` (`Pods` maps to the proto
`INSTANCES`, `Percent` to `PERCENT`). -/
inductive HPAScalingPolicyType where
  | Pods
  | Percent
deriving DecidableEq, Repr

/-- `autoscalingv2.HPAScalingPolicy`. -/
structure HPAScalingPolicy where
  type : HPAScalingPolicyType
  value : Int := 0
  periodSeconds : Int := 0
deriving DecidableEq, Repr

/-- `autoscalingv2.ScalingPolicySelect`. -/
inductive ScalingPolicySelect where
  | MaxChangePolicySelect
  | MinChangePolicySelect
  | DisabledPolicySelect
deriving DecidableEq, Repr

/-- `autoscalingv2.HPAScalingRules`: one direction of the configured
behavior (pointer-valued fields become `Option`). -/
structure HPAScalingRules where
  stabilizationWindowSeconds : Option Int := none
  selectPolicy : Option ScalingPolicySelect := none
  policies : List HPAScalingPolicy := []
deriving DecidableEq, Repr

/-- `autoscalingv2.HorizontalPodAutoscalerBehavior`. -/
structure HorizontalPodAutoscalerBehavior where
  scaleUp : Option HPAScalingRules := none
  scaleDown : Option HPAScalingRules := none
deriving DecidableEq, Repr

/-- KEDA `HorizontalPodAutoscalerConfig`. -/
structure HorizontalPodAutoscalerConfig where
  behavior : Option HorizontalPodAutoscalerBehavior := none
deriving DecidableEq, Repr

/-- KEDA `AdvancedConfig`. -/
structure AdvancedConfig where
  horizontalPodAutoscalerConfig : Option HorizontalPodAutoscalerConfig := none
deriving DecidableEq, Repr

/-- KEDA `ScaledObjectSpec` (the fields read by the embedded functions). -/
structure ScaledObjectSpec where
  scaleTargetRef : Option ScaleTargetRef := none
  pollingInterval : Option Int := none
  triggers : List Trigger := []
  minReplicaCount : Option Int := none
  maxReplicaCount : Option Int := none
  advanced : Option AdvancedConfig := none
deriving DecidableEq, Repr

/-- `api.CremaScaledObject`. -/
structure CremaScaledObject where
  spec : ScaledObjectSpec := {}
deriving DecidableEq, Repr

/-- `api.AuthPodIdentity`. -/
structure AuthPodIdentity where
  provider : String := ""
deriving DecidableEq, Repr

/-- One secret entry of KEDA `GCPSecretManager`. -/
structure GCPSecretManagerSecret where
  parameter : String := ""
  id : String := ""
  version : String := ""
deriving DecidableEq, Repr

/-- KEDA `GCPSecretManager`. -/
structure GCPSecretManager where
  secrets : List GCPSecretManagerSecret := []
deriving DecidableEq, Repr

/-- `api.TriggerAuthenticationSpec`. -/
structure TriggerAuthenticationSpec where
  podIdentity : Option AuthPodIdentity := none
  gcpSecretManager : Option GCPSecretManager := none
deriving DecidableEq, Repr

/-- `api.TriggerAuthentication` (`name` is `metadata.name`). -/
structure TriggerAuthentication where
  name : String := ""
  spec : TriggerAuthenticationSpec := {}
deriving DecidableEq, Repr

/-- `api.CremaConfigSpec`. -/
structure CremaConfigSpec where
  scaledObjects : List CremaScaledObject := []
  triggerAuthentications : List TriggerAuthentication := []
  pollingIntervalSeconds : Option Int := none
deriving DecidableEq, Repr

/-- `api.CremaConfig`. -/
structure CremaConfig where
  spec : CremaConfigSpec := {}
deriving DecidableEq, Repr

/-! ## Config validation (`internal/config/validator.go`) -/

/-- `validateTriggerAuthentication`. -/
def validateTriggerAuthentication (ta : TriggerAuthentication) : Except String Unit :=
  if ta.name = "" then
    .error "triggerAuthentications metadata.name: must be set"
  else if ta.spec.podIdentity = none ∧ ta.spec.gcpSecretManager = none then
    .error "triggerAuthentications spec: must be set"
  else
    match ta.spec.podIdentity with
    | some pid =>
      if pid.provider = "" then
        .error "triggerAuthentications spec.podIdentity.provider: must be set"
      else .ok ()
    | none => .ok ()

/-- The per-trigger checks of `validateScaledObject`. -/
def validateTriggers (auths : List String) : List Trigger → Except String Unit
  | [] => .ok ()
  | t :: rest =>
    if t.type = "" then
      .error "triggers type: must be set"
    else
      match t.authenticationRef with
      | some r =>
        if r.name ≠ "" ∧ ¬ auths.contains r.name then
          .error "triggers authenticationRef.name: trigger authentication not found"
        else validateTriggers auths rest
      | none => validateTriggers auths rest

/-- `validateScaledObject`. -/
def validateScaledObject (so : CremaScaledObject) (auths : List String) :
    Except String Unit :=
  if (match so.spec.scaleTargetRef with | none => true | some r => r.name = "") then
    .error "scaleTargetRef.name: must be set"
  else if so.spec.pollingInterval ≠ none then
    .error "pollingInterval: must only be specified as part of top-level CremaConfig.spec"
  else if so.spec.triggers.length = 0 then
    .error "triggers: must have at least one trigger"
  else
    validateTriggers auths so.spec.triggers

/-- The trigger-authentication loop of `ValidateConfig`: each record is
validated, checked for duplication and added to the name set. -/
def checkTriggerAuthentications (auths : List String) :
    List TriggerAuthentication → Except String (List String)
  | [] => .ok auths
  | ta :: rest =>
    match validateTriggerAuthentication ta with
    | .error e => .error e
    | .ok _ =>
      if auths.contains ta.name then
        .error "triggerAuthentications metadata.name: must be unique"
      else checkTriggerAuthentications (auths ++ [ta.name]) rest

/-- The scaled-object loop of `ValidateConfig`. -/
def checkScaledObjects (auths : List String) : List CremaScaledObject → Except String Unit
  | [] => .ok ()
  | so :: rest =>
    match validateScaledObject so auths with
    | .error e => .error e
    | .ok _ => checkScaledObjects auths rest

/-- `ValidateConfig`. -/
def ValidateConfig (config : CremaConfig) : Except String Unit :=
  if config.spec.scaledObjects.length = 0 then
    .error "spec.scaledObjects: must have at least one scaled object"
  else
    match checkTriggerAuthentications [] config.spec.triggerAuthentications with
    | .error e => .error e
    | .ok auths => checkScaledObjects auths config.spec.scaledObjects

/-! ## Config defaulting (`configprovider`, `src/unnamed/part_004`) -/

/-- `applyDefaultScalingPolicies`: fills an absent direction with its
default rules; an absent select policy of a present direction is defaulted
separately (Min for scale-down, Max for scale-up). -/
def applyDefaultScalingPolicies (behavior : HorizontalPodAutoscalerBehavior) :
    HorizontalPodAutoscalerBehavior :=
  let behavior :=
    match behavior.scaleDown with
    | none =>
      { behavior with
        scaleDown := some
          { stabilizationWindowSeconds := some 300
            policies := [{ type := .Percent, value := 100, periodSeconds := 15 }] } }
    | some _ => behavior
  let behavior :=
    match behavior.scaleDown with
    | some sd =>
      if sd.selectPolicy = none then
        { behavior with
          scaleDown := some { sd with selectPolicy := some .MinChangePolicySelect } }
      else behavior
    | none => behavior
  let behavior :=
    match behavior.scaleUp with
    | none =>
      { behavior with
        scaleUp := some
          { stabilizationWindowSeconds := some 0
            policies := [{ type := .Percent, value := 100, periodSeconds := 15 },
              { type := .Pods, value := 4, periodSeconds := 15 }] } }
    | some _ => behavior
  let behavior :=
    match behavior.scaleUp with
    | some su =>
      if su.selectPolicy = none then
        { behavior with
          scaleUp := some { su with selectPolicy := some .MaxChangePolicySelect } }
      else behavior
    | none => behavior
  behavior

/-- `applyDefaultScalingStabilizationForScaledObject`: materializes the
`Advanced`/`HorizontalPodAutoscalerConfig`/`Behavior` chain and applies
`applyDefaultScalingPolicies` to the (possibly empty) behavior. -/
def applyDefaultScalingStabilizationForScaledObject (so : CremaScaledObject) :
    CremaScaledObject :=
  let advanced := so.spec.advanced.getD {}
  let hpaConfig := advanced.horizontalPodAutoscalerConfig.getD {}
  let behavior := hpaConfig.behavior.getD {}
  { spec :=
    { so.spec with
      advanced := some
        { advanced with
          horizontalPodAutoscalerConfig := some
            { hpaConfig with
              behavior := some (applyDefaultScalingPolicies behavior) } } } }

/-- The default scale-down rules installed by `applyDefaultScalingPolicies`
(after select-policy defaulting). -/
def defaultScaleDownRules : HPAScalingRules :=
  { stabilizationWindowSeconds := some 300
    selectPolicy := some .MinChangePolicySelect
    policies := [{ type := .Percent, value := 100, periodSeconds := 15 }] }

/-- The default scale-up rules installed by `applyDefaultScalingPolicies`
(after select-policy defaulting). -/
def defaultScaleUpRules : HPAScalingRules :=
  { stabilizationWindowSeconds := some 0
    selectPolicy := some .MaxChangePolicySelect
    policies := [{ type := .Percent, value := 100, periodSeconds := 15 },
      { type := .Pods, value := 4, periodSeconds := 15 }] }

/-- The scaling behavior reached through the optional
`advanced.horizontalPodAutoscalerConfig.behavior` chain. -/
def behaviorChain (so : CremaScaledObject) : Option HorizontalPodAutoscalerBehavior :=
  (so.spec.advanced.bind AdvancedConfig.horizontalPodAutoscalerConfig).bind
    HorizontalPodAutoscalerConfig.behavior

/-- The configured scale-down rules of a scaled object, when present. -/
def configuredScaleDown (so : CremaScaledObject) : Option HPAScalingRules :=
  (behaviorChain so).bind HorizontalPodAutoscalerBehavior.scaleDown

/-- The configured scale-up rules of a scaled object, when present. -/
def configuredScaleUp (so : CremaScaledObject) : Option HPAScalingRules :=
  (behaviorChain so).bind HorizontalPodAutoscalerBehavior.scaleUp

/-! ## Scaler builders (`scaling` package, `src/unnamed/part_000`) -/

/-- The fields of `scalersconfig.ScalerConfig` that the scaling pipeline
reads downstream. -/
structure ScalersConfig where
  triggerName : String := ""
  triggerType : String := ""
  triggerIndex : Nat := 0
deriving DecidableEq, Repr, Inhabited

/-- `cache.ScalerBuilder`; the constructed KEDA scaler itself is an opaque
resource and is not carried. -/
structure ScalerBuilder where
  scalerConfig : ScalersConfig := {}
deriving DecidableEq, Repr, Inhabited

/-- The per-trigger body of `BuilderFactory.MakeBuilders`: the factory
closure (auth resolution plus `buildScaler` dispatch, abstracted as the
Boolean oracle `factorySucceeds`) either yields a builder whose config
carries the trigger's name, type and index, or fails and the trigger is
skipped. -/
def makeBuilderStep (factorySucceeds : Nat → Trigger → Bool) (p : Nat × Trigger) :
    Option ScalerBuilder :=
  if factorySucceeds p.1 p.2 then
    some ⟨{ triggerName := p.2.name, triggerType := p.2.type, triggerIndex := p.1 }⟩
  else none

/-- `BuilderFactory.MakeBuilders`: one `makeBuilderStep` per trigger, in
trigger-list order; the returned error is non-nil exactly when no builder
was created. -/
def MakeBuilders (triggers : List Trigger) (factorySucceeds : Nat → Trigger → Bool) :
    List ScalerBuilder × Option String :=
  let builders := triggers.enum.filterMap (makeBuilderStep factorySucceeds)
  (builders, if builders.length = 0 then some "failed to create any scalers for scaledObject" else none)

/-! ## State provider (`scaling` package, both versions in
`internal/scaling/translation_test.go`) -/

/-- `v2.MetricTargetType`. -/
inductive MetricTargetType where
  | Utilization
  | Value
  | AverageValue
deriving DecidableEq, Repr

/-- `v2.MetricTarget` (quantities as `ℚ`). -/
structure MetricTarget where
  type : MetricTargetType := .Value
  value : ℚ := 0
  averageValue : ℚ := 0
deriving DecidableEq, Repr

/-- `scaling.MetricAndTargetValue`. -/
structure MetricAndTargetValue where
  triggerName : String := ""
  triggerType : String := ""
  metricValue : ℚ := 0
  targetValue : MetricTarget := {}
deriving DecidableEq, Repr

/-- `scaling.scalerState` (newer version). -/
structure ScalerState where
  metricAndTargetValue : MetricAndTargetValue := {}
  isActive : Bool := false
deriving DecidableEq, Repr

/-- `scaling.scalerChanResult` (newer version): a scaler state and error
tagged with the originating trigger index. -/
structure ScalerChanResult where
  triggerIndex : Nat := 0
  scalerState : ScalerState := {}
  err : Option String := none
deriving DecidableEq, Repr

/-- `scaling.ScaledObjectState`. -/
structure ScaledObjectState where
  metricAndTargetValues : List MetricAndTargetValue := []
  isActive : Bool := false
deriving DecidableEq, Repr

/-- The trigger type the newer `GetScaledObjectState` attributes to a
builder: `scaledObject.Spec.Triggers[builder.ScalerConfig.TriggerIndex].Type`
(an out-of-range index panics in Go; the claims only exercise in-range
indices, proved for `MakeBuilders` output below). -/
def attributedTriggerType (triggers : List Trigger) (b : ScalerBuilder) : String :=
  (triggers.getD b.scalerConfig.triggerIndex default).type

/-- The per-builder results the newer `GetScaledObjectState` collects from
its fan-out, with `getScalerState` (the scaler read) as an oracle. -/
def scalerResults (triggers : List Trigger) (builders : List ScalerBuilder)
    (getScalerState : ScalerBuilder → String → ScalerChanResult) :
    List ScalerChanResult :=
  builders.map (fun b => getScalerState b (attributedTriggerType triggers b))

/-- Newer `StateProvider.GetScaledObjectState`: failed results are logged
and skipped; the call fails exactly when no metric-and-target value was
collected. -/
def GetScaledObjectState (triggers : List Trigger) (builders : List ScalerBuilder)
    (getScalerState : ScalerBuilder → String → ScalerChanResult) :
    Except String ScaledObjectState :=
  let results := scalerResults triggers builders getScalerState
  let collected := results.filterMap
    (fun r => if r.err = none then some r.scalerState else none)
  let metricAndTargetValues := collected.map ScalerState.metricAndTargetValue
  if metricAndTargetValues.length = 0 then
    .error "failed to retrieve any metrics for scaling"
  else
    .ok ⟨metricAndTargetValues, collected.any ScalerState.isActive⟩

/-- `scaling.scalerState` of the older `GetScaledObjectState` version, which
carries the error inline. -/
structure ScalerStateOld where
  metricAndTargetValue : MetricAndTargetValue := {}
  isActive : Bool := false
  err : Option String := none
deriving DecidableEq, Repr

/-- Older `StateProvider.GetScaledObjectState` version: the trigger type is
looked up by loop position, the activity flag is taken from all results, and
a consolidated error is returned whenever any scaler failed (the state is
returned alongside it). -/
def GetScaledObjectStateOld (triggers : List Trigger) (builders : List ScalerBuilder)
    (getScalerState : ScalerBuilder → String → ScalerStateOld) :
    ScaledObjectState × Option String :=
  let results := builders.enum.map
    (fun p => getScalerState p.2 (triggers.getD p.1 default).type)
  let collected := results.filterMap
    (fun r => if r.err = none then some r.metricAndTargetValue else none)
  let scalerErrors := results.filterMap ScalerStateOld.err
  (⟨collected, results.any ScalerStateOld.isActive⟩,
    if 0 < scalerErrors.length then
      some "encountered errors while getting metrics"
    else none)

/-! ## Orchestrator (`internal/orchestrator/orchestrator.go`) -/

/-- The guard of `scaling.ToKedaScaledObjects`: a scaled object is kept
when its scale-target reference exists and carries a non-empty name. -/
def hasScaleTarget (so : CremaScaledObject) : Bool :=
  match so.spec.scaleTargetRef with
  | none => false
  | some r => r.name ≠ ""

/-- `scaling.ToKedaScaledObjects`: scaled objects without a scale-target
name are dropped; the spec payload is passed through. -/
def ToKedaScaledObjects (config : CremaConfig) : List CremaScaledObject :=
  config.spec.scaledObjects.filter hasScaleTarget

/-- The per-workload pipeline of `Orchestrator.RefreshMetrics`: builder
construction then state retrieval, abstracted as oracles; either error
skips the workload. -/
def workloadMetrics {M E : Type}
    (makeBuilders : CremaScaledObject → Except E (List ScalerBuilder))
    (getState : CremaScaledObject → List ScalerBuilder → Except E ScaledObjectState)
    (toM : CremaScaledObject → ScaledObjectState → M)
    (so : CremaScaledObject) : Option M :=
  match makeBuilders so with
  | .error _ => none
  | .ok builders =>
    match getState so builders with
    | .error _ => none
    | .ok st => some (toM so st)

/-- The aggregate scale request assembled by one `RefreshMetrics` cycle. -/
def cycleAggregates {M E : Type} (config : CremaConfig)
    (makeBuilders : CremaScaledObject → Except E (List ScalerBuilder))
    (getState : CremaScaledObject → List ScalerBuilder → Except E ScaledObjectState)
    (toM : CremaScaledObject → ScaledObjectState → M) : List M :=
  (ToKedaScaledObjects config).filterMap (workloadMetrics makeBuilders getState toM)

/-- The observable outcome of one `RefreshMetrics` cycle: the scale request
sent over the RPC, if any, and the cycle's return value. -/
structure RefreshOutcome (M E : Type) where
  request : Option (List M)
  result : Except E Unit

/-- `Orchestrator.RefreshMetrics`: per-workload errors are logged and the
loop continues; a non-empty aggregate is sent as a single scale RPC whose
error becomes the cycle result; an empty aggregate suppresses the RPC. -/
def RefreshMetrics {M E : Type} (config : CremaConfig)
    (makeBuilders : CremaScaledObject → Except E (List ScalerBuilder))
    (getState : CremaScaledObject → List ScalerBuilder → Except E ScaledObjectState)
    (toM : CremaScaledObject → ScaledObjectState → M)
    (scaleRPC : List M → Except E Unit) : RefreshOutcome M E :=
  let aggregates := cycleAggregates config makeBuilders getState toM
  if 0 < aggregates.length then
    ⟨some aggregates, scaleRPC aggregates⟩
  else
    ⟨none, .ok ()⟩

/-! ## Concrete fixtures used by the witness theorems below -/

/-- Supplied scale-down rules without a select policy. -/
def suppliedDownRules : HPAScalingRules :=
  { stabilizationWindowSeconds := some 100
    selectPolicy := none
    policies := [{ type := .Pods, value := 1, periodSeconds := 10 }] }

/-- A scaled object supplying only the scale-down direction, without a
select policy. -/
def suppliedDownObject : CremaScaledObject :=
  { spec :=
      { advanced := some
          { horizontalPodAutoscalerConfig := some
              { behavior := some
                  { scaleUp := none, scaleDown := some suppliedDownRules } } } } }

/-- Supplied, complete scale-up rules. -/
def suppliedUpRules : HPAScalingRules :=
  { stabilizationWindowSeconds := some 60
    selectPolicy := some .MaxChangePolicySelect
    policies := [{ type := .Pods, value := 2, periodSeconds := 30 }] }

/-- A scaled object supplying only the scale-up direction. -/
def suppliedUpObject : CremaScaledObject :=
  { spec :=
      { advanced := some
          { horizontalPodAutoscalerConfig := some
              { behavior := some
                  { scaleUp := some suppliedUpRules, scaleDown := none } } } } }

/-- A workload whose builder factory fails in the cycle fixture. -/
def cycleBadWorkload : CremaScaledObject :=
  { spec := { scaleTargetRef := some { name := "projects/p/locations/l/services/bad" } } }

/-- A workload whose pipeline succeeds in the cycle fixture. -/
def cycleGoodWorkload : CremaScaledObject :=
  { spec := { scaleTargetRef := some { name := "projects/p/locations/l/services/good" } } }

/-- Builder factory of the cycle fixture: fails on the bad workload. -/
def cycleMakeBuilders (so : CremaScaledObject) : Except Nat (List ScalerBuilder) :=
  if so.spec.scaleTargetRef = some { name := "projects/p/locations/l/services/bad" } then
    .error 7
  else .ok []

/-- State provider of the cycle fixture: always succeeds. -/
def cycleGetState (_so : CremaScaledObject) (_builders : List ScalerBuilder) :
    Except Nat ScaledObjectState :=
  .ok {}

/-- Metric assembly of the cycle fixture. -/
def cycleToM (_so : CremaScaledObject) (_st : ScaledObjectState) : Nat := 1

/-- Scale RPC of the cycle fixture: always fails with error 42. -/
def cycleRPC (_ms : List Nat) : Except Nat Unit := .error 42

/-- A trigger authentication named my-auth, used by the validator witness. -/
def myAuth : TriggerAuthentication :=
  { name := "my-auth", spec := { podIdentity := some { provider := "gcp" } } }

/-- The trigger of the validator witness referencing my-auth. -/
def refTrigger : Trigger :=
  { type := "cron", authenticationRef := some { name := "my-auth" } }

/-- A scaled object whose single trigger references my-auth. -/
def refObject : CremaScaledObject :=
  { spec :=
      { scaleTargetRef := some { name := "projects/p/locations/l/services/s" }
        triggers := [refTrigger] } }

/-- A scaled object whose single trigger carries an empty reference name. -/
def emptyRefObject : CremaScaledObject :=
  { spec :=
      { scaleTargetRef := some { name := "projects/p/locations/l/services/s" }
        triggers := [{ type := "cron", authenticationRef := some { name := "" } }] } }

/-- A config declaring my-auth and one scaled object referencing it. -/
def refConfig : CremaConfig :=
  { spec := { scaledObjects := [refObject], triggerAuthentications := [myAuth] } }

/-! ## Helper lemmas -/

/-- The trigger loop of `Scaler.scale`, characterized: the accumulated
maximum extends over the contributing recommendations and the flag records
whether any metric contributed. -/
lemma unboundedLoop_go (n : Int) (ms : List Metric) (a : Int) (b : Bool) :
    ms.foldl
      (fun acc m =>
        match metricRecommendation n m with
        | some r => (max acc.1 r, true)
        | none => acc)
      (a, b) =
    ((contributingRecommendations n ms).foldl max a,
      b || !(contributingRecommendations n ms).isEmpty) := by
  induction ms generalizing a b with
  | nil => simp [contributingRecommendations]
  | cons m rest ih =>
    cases h : metricRecommendation n m with
    | some r =>
      simp only [List.foldl_cons, h, contributingRecommendations, List.filterMap_cons, ih]
      simp [contributingRecommendations]
    | none =>
      simp only [List.foldl_cons, h, contributingRecommendations, List.filterMap_cons, ih]

/-- `unboundedLoop` in terms of the contributing recommendations. -/
lemma unboundedLoop_eq (n : Int) (ms : List Metric) :
    unboundedLoop n ms =
      ((contributingRecommendations n ms).foldl max 0,
        !(contributingRecommendations n ms).isEmpty) := by
  simpa using unboundedLoop_go n ms 0 false

/-- On the non-empty-metrics path with a valid trigger, `Scaler.scale`
issues exactly the bounded recommendation, if it differs from the current
count. -/
lemma scale_nonEmpty_hasValid (inp : ScaleInput)
    (hw : ¬ (inp.workloadType = .workerpool ∧ inp.useMinInstances))
    (hm : inp.som.metrics ≠ [])
    (hv : (unboundedLoop inp.currentInstanceCount inp.som.metrics).2 = true) :
    Scaler.scale inp =
      (let bounded := Scaler.getBoundedRecommendation inp.currentInstanceCount
        (unboundedLoop inp.currentInstanceCount inp.som.metrics).1
        inp.stabilizer inp.som.scalerConfig inp.now
      if bounded ≠ inp.currentInstanceCount then
        .ok ⟨.succeeded, some bounded, true,
          inp.stabilizer.markScaleEvent inp.som.scalerConfig.behavior inp.now
            inp.currentInstanceCount bounded⟩
      else
        .ok ⟨.succeeded, none, false, inp.stabilizer⟩) := by
  have hlen : ¬ inp.som.metrics.length = 0 := by
    simpa [List.length_eq_zero] using hm
  simp only [Scaler.scale, if_neg hw, if_neg hlen, hv]
  simp

/-! ## Claim C1 -/

/-- C1, counterexample: on a scaled object whose metrics list is empty with
`min_replicas = 5` and `current = 3`, `Scaler.scale` issues an update to 0
instances, while `clamp(stabilize(...), min_replicas, max_replicas)` equals
5; so the claimed equation does not hold for all inputs. -/
theorem scale_claim_fails_on_empty_metrics_cex :
    Scaler.scale
      { workloadType := .service, useMinInstances := false,
        currentInstanceCount := 3, now := 0,
        som := { scalerConfig := { minInstances := 5, maxInstances := 100 }, metrics := [] },
        stabilizer := ScalingStabilizer.mk0 0 3 } =
      .ok ⟨.succeeded, some 0, false, ScalingStabilizer.mk0 0 3⟩ ∧
    Scaler.getBoundedRecommendation 3
      (unboundedLoop 3 []).1 (ScalingStabilizer.mk0 0 3)
      { minInstances := 5, maxInstances := 100 } 0 = 5 ∧
    (0 : Int) ≠ 5 := by
  refine ⟨rfl, by decide, by decide⟩

/-- C1, amended: for every `Scaler.scale` invocation that reaches the
trigger loop with a NON-EMPTY metrics list and at least one contributing
trigger, the instance count issued equals
`clamp(stabilize(behavior, now, current, unbounded), min, max)` and no
update is issued when that bounded value equals the current count; the
empty-metrics path instead issues 0 unconditionally. -/
theorem scale_issues_bounded_recommendation (inp : ScaleInput) (out : ScaleOutcome)
    (hm : inp.som.metrics ≠ [])
    (hv : (unboundedLoop inp.currentInstanceCount inp.som.metrics).2 = true)
    (hok : Scaler.scale inp = .ok out) :
    out.status = .succeeded ∧
    (Scaler.getBoundedRecommendation inp.currentInstanceCount
        (unboundedLoop inp.currentInstanceCount inp.som.metrics).1
        inp.stabilizer inp.som.scalerConfig inp.now = inp.currentInstanceCount →
      out.update = none) ∧
    (Scaler.getBoundedRecommendation inp.currentInstanceCount
        (unboundedLoop inp.currentInstanceCount inp.som.metrics).1
        inp.stabilizer inp.som.scalerConfig inp.now ≠ inp.currentInstanceCount →
      out.update = some (Scaler.getBoundedRecommendation inp.currentInstanceCount
        (unboundedLoop inp.currentInstanceCount inp.som.metrics).1
        inp.stabilizer inp.som.scalerConfig inp.now)) := by
  by_cases hw : inp.workloadType = .workerpool ∧ inp.useMinInstances
  · simp [Scaler.scale, hw] at hok
  · rw [scale_nonEmpty_hasValid inp hw hm hv] at hok
    by_cases hb : Scaler.getBoundedRecommendation inp.currentInstanceCount
        (unboundedLoop inp.currentInstanceCount inp.som.metrics).1
        inp.stabilizer inp.som.scalerConfig inp.now = inp.currentInstanceCount
    · simp only [hb, ne_eq, not_true_eq_false, if_false, Except.ok.injEq] at hok
      subst hok
      exact ⟨rfl, fun _ => rfl, fun h => absurd hb h⟩
    · simp only [ne_eq, hb, not_false_eq_true, if_true, Except.ok.injEq] at hok
      subst hok
      exact ⟨rfl, fun h => absurd h hb, fun _ => rfl⟩

/-- C1, witness: a concrete scale-up from 5 to 10 instances through the
amended theorem. -/
theorem scale_issues_bounded_recommendation_witness :
    (let inp : ScaleInput :=
      { workloadType := .service, useMinInstances := false,
        currentInstanceCount := 5, now := 0,
        som := { scalerConfig := { minInstances := 0, maxInstances := 100 },
                 metrics := [{ value := 2000, targetValue := some 1000 }] },
        stabilizer := ScalingStabilizer.mk0 0 5 }
     let out : ScaleOutcome :=
      ⟨.succeeded, some 10, true,
        (ScalingStabilizer.mk0 0 5).markScaleEvent {} 0 5 10⟩
     out.status = .succeeded ∧
       (Scaler.getBoundedRecommendation 5 (unboundedLoop 5 inp.som.metrics).1
           inp.stabilizer inp.som.scalerConfig 0 = 5 → out.update = none) ∧
       (Scaler.getBoundedRecommendation 5 (unboundedLoop 5 inp.som.metrics).1
           inp.stabilizer inp.som.scalerConfig 0 ≠ 5 → out.update = some
           (Scaler.getBoundedRecommendation 5 (unboundedLoop 5 inp.som.metrics).1
             inp.stabilizer inp.som.scalerConfig 0))) :=
  scale_issues_bounded_recommendation _ _ (by simp)
    (by
      simp only [unboundedLoop, metricRecommendation, posTarget,
        TargetValueScaling.makeRecommendation, TargetAverageValueScaling.makeRecommendation,
        List.foldl]
      norm_num)
    (by
      simp only [Scaler.scale, Scaler.getBoundedRecommendation,
        ScalingStabilizer.getStabilizedRecommendation, ScalingStabilizer.mk0,
        ScalingStabilizer.markScaleEvent, retentionBound, clamp,
        scaleUpBound, scaleDownBound, rateBoundUp, rateBoundDown,
        policyCandidateUp, policyCandidateDown, policyPermittedUp, policyPermittedDown,
        eventsWithinPeriod, windowBoundUp, windowBoundDown,
        unboundedLoop, metricRecommendation, posTarget,
        TargetValueScaling.makeRecommendation, TargetAverageValueScaling.makeRecommendation,
        List.foldl, List.filter, List.map]
      norm_num +decide)

/-! ## Claim C2 -/

/-- C2: the literal scale-down Percent-policy scenario: behavior with a
single `(Percent, 50, 60 s)` scale-down policy and no stabilization window,
stabilizer seeded with 100 instances at `t = 0`:
`getStabilizedRecommendation(current = 100, unbounded = 10)` returns 50 at
`t = 0`; after `markScaleEvent(0, 100, 50)` it returns 50 at `t = 59 s`
(the retained entries with `prev = 100` within the 60 s period floor the
result at `floor(100 * (1 - 50/100)) = 50`) and 25 at `t = 60 s` (the
period no longer retains them). -/
theorem stabilizer_scale_down_percent_policy_scenario :
    (let behavior : Behavior :=
      { scaleDown := { policies := [{ ptype := .percent, value := 50, periodSeconds := 60 }] } }
     let s0 := ScalingStabilizer.mk0 0 100
     s0.getStabilizedRecommendation behavior 0 100 10 = 50 ∧
       (s0.markScaleEvent behavior 0 100 50).getStabilizedRecommendation
         behavior 59 50 10 = 50 ∧
       (s0.markScaleEvent behavior 0 100 50).getStabilizedRecommendation
         behavior 60 50 10 = 25) := by
  refine ⟨?_, ?_, ?_⟩ <;>
    (simp only [ScalingStabilizer.getStabilizedRecommendation, ScalingStabilizer.mk0,
      ScalingStabilizer.markScaleEvent, retentionBound,
      scaleDownBound, scaleUpBound, rateBoundDown, rateBoundUp, policyCandidateDown,
      policyCandidateUp, eventsWithinPeriod, windowBoundDown, windowBoundUp,
      policyPermittedDown, policyPermittedUp, List.filter, List.map, List.foldl,
      List.append_eq, List.cons_append, List.nil_append]
     norm_num +decide)

/-! ## Claim C3 -/

/-- C3, counterexample: with `current = 1` and a single metric of value
`-100` against `target_average_value = 10`, the per-trigger recommendation
is `ceil(-100/10) = -10`, yet the unbounded recommendation computed by the
loop is `0`, not the maximum `-10` of the per-trigger recommendations. -/
theorem unbounded_not_max_of_recommendations_cex :
    metricRecommendation 1 { value := -100, targetAverageValue := some 10 } = some (-10) ∧
    contributingRecommendations 1 [{ value := -100, targetAverageValue := some 10 }] = [-10] ∧
    (unboundedLoop 1 [{ value := -100, targetAverageValue := some 10 }]).1 = 0 ∧
    (0 : Int) ≠ -10 := by
  have hc : (⌈(-10 : ℚ)⌉ : ℤ) = -10 := by
    rw [show ((-10 : ℚ)) = ((-10 : Int) : ℚ) by norm_num, Int.ceil_intCast]
  refine ⟨?_, ?_, ?_, by decide⟩ <;>
    (simp only [unboundedLoop, contributingRecommendations, metricRecommendation, posTarget,
      TargetAverageValueScaling.makeRecommendation, TargetValueScaling.makeRecommendation,
      List.foldl, List.filterMap]
     norm_num [hc])

/-- C3, amended: a positive `target_average_value t` yields `ceil(V / t)`
(taking precedence over any `target_value`); otherwise a positive
`target_value t` yields `ceil(max(n, 1) * V / t)`; and the workload's
unbounded recommendation is the maximum of 0 and the per-trigger
recommendations of the contributing triggers (the loop seeds its running
maximum with 0). -/
theorem trigger_recommendation_formulas :
    (∀ (n : Int) (m : Metric) (t : ℚ), m.targetAverageValue = some t → 0 < t →
      metricRecommendation n m = some ⌈m.value / t⌉) ∧
    (∀ (n : Int) (m : Metric) (t : ℚ), posTarget m.targetAverageValue = false →
      m.targetValue = some t → 0 < t →
      metricRecommendation n m = some ⌈(max n 1 : ℚ) * m.value / t⌉) ∧
    (∀ (n : Int) (metrics : List Metric),
      (unboundedLoop n metrics).1 =
        (contributingRecommendations n metrics).foldl max 0) := by
  refine ⟨?_, ?_, ?_⟩
  · intro n m t hav ht
    have hne : t ≠ 0 := ne_of_gt ht
    simp [metricRecommendation, hav, posTarget, ht,
      TargetAverageValueScaling.makeRecommendation, hne]
  · intro n m t hav htv ht
    have hne : t ≠ 0 := ne_of_gt ht
    have hpos : posTarget m.targetValue = true := by simp [htv, posTarget, ht]
    rw [metricRecommendation, if_neg (by simp [hav]), if_pos (by simp [hpos])]
    simp [htv, TargetValueScaling.makeRecommendation, hne]
  · intro n metrics
    rw [unboundedLoop_eq]

/-- C3, witness: metric value 200 against `target_average_value = 100` with
`target_value = 50` also set yields `ceil(200/100) = 2` at one current
instance. -/
theorem trigger_recommendation_formulas_witness :
    metricRecommendation 1
      { value := 200, targetValue := some 50, targetAverageValue := some 100 } =
      some ⌈(200 : ℚ) / 100⌉ :=
  trigger_recommendation_formulas.1 1
    { value := 200, targetValue := some 50, targetAverageValue := some 100 }
    100 rfl (by norm_num)

/-! ## Claim C5 -/

/-- C5: a metric whose targets are both zero or absent contributes no
recommendation, and when a non-empty metrics list has no contributing
metric at all, `Scaler.scale` returns `FAILED` for the workload, issues no
update and leaves the stabilizer untouched. -/
theorem scale_fails_without_valid_trigger :
    (∀ (n : Int) (m : Metric),
      (m.targetAverageValue = none ∨ m.targetAverageValue = some 0) →
      (m.targetValue = none ∨ m.targetValue = some 0) →
      metricRecommendation n m = none) ∧
    (∀ inp : ScaleInput,
      ¬ (inp.workloadType = .workerpool ∧ inp.useMinInstances) →
      inp.som.metrics ≠ [] →
      (∀ m ∈ inp.som.metrics, metricRecommendation inp.currentInstanceCount m = none) →
      Scaler.scale inp = .ok ⟨.failed, none, false, inp.stabilizer⟩) := by
  constructor
  · intro n m hav htv
    have h1 : posTarget m.targetAverageValue = false := by
      rcases hav with h | h <;> simp [posTarget, h]
    have h2 : posTarget m.targetValue = false := by
      rcases htv with h | h <;> simp [posTarget, h]
    simp [metricRecommendation, h1, h2]
  · intro inp hw hm hall
    have hrecs : contributingRecommendations inp.currentInstanceCount inp.som.metrics = [] := by
      simp only [contributingRecommendations, List.filterMap_eq_nil_iff]
      exact hall
    have hlen : ¬ inp.som.metrics.length = 0 := by
      simpa [List.length_eq_zero] using hm
    have hflag : (unboundedLoop inp.currentInstanceCount inp.som.metrics).2 = false := by
      rw [unboundedLoop_eq, hrecs]; rfl
    simp only [Scaler.scale, if_neg hw, if_neg hlen, hflag]
    simp

/-- C5, witness: a metric with both targets set to zero makes scaling fail
with no update. -/
theorem scale_fails_without_valid_trigger_witness :
    Scaler.scale
      { workloadType := .service, useMinInstances := true,
        currentInstanceCount := 1, now := 0,
        som := { scalerConfig := {},
                 metrics := [{ value := 200, targetValue := some 0,
                               targetAverageValue := some 0 }] },
        stabilizer := ScalingStabilizer.mk0 0 1 } =
      .ok ⟨.failed, none, false, ScalingStabilizer.mk0 0 1⟩ :=
  scale_fails_without_valid_trigger.2 _ (by decide) (by simp)
    (by simp [metricRecommendation, posTarget])

/-! ## Claim C8 -/

/-- C8: `Scaler.scale` on an empty metrics list (and off the worker-pool
guard) unconditionally issues an update to 0 instances: the stabilizer is
not consulted and returned unchanged, `markScaleEvent` never runs, the
result is not clamped to the replica bounds, and the update is issued even
when the current instance count is already 0. -/
theorem scale_empty_metrics_scales_to_zero (inp : ScaleInput)
    (hw : ¬ (inp.workloadType = .workerpool ∧ inp.useMinInstances))
    (hm : inp.som.metrics = []) :
    Scaler.scale inp = .ok ⟨.succeeded, some 0, false, inp.stabilizer⟩ := by
  have hlen : inp.som.metrics.length = 0 := by simp [hm]
  simp [Scaler.scale, hw, hlen]

/-- C8, witness: a workload already at 0 instances with `min_replicas = 5`
still gets an update to 0. -/
theorem scale_empty_metrics_scales_to_zero_witness :
    Scaler.scale
      { workloadType := .service, useMinInstances := false,
        currentInstanceCount := 0, now := 0,
        som := { scalerConfig := { minInstances := 5, maxInstances := 100 }, metrics := [] },
        stabilizer := ScalingStabilizer.mk0 0 0 } =
      .ok ⟨.succeeded, some 0, false, ScalingStabilizer.mk0 0 0⟩ :=
  scale_empty_metrics_scales_to_zero _ (by decide) (by decide)

/-! ## Claim C4 -/

/-- C4: the newer `GetScaledObjectState` succeeds exactly when at least one
scaler result carries no error, and the successful state contains exactly
the successful readings (so some scalers may fail without failing the
call); the older version instead returns a non-nil consolidated error
whenever any scaler failed. -/
theorem get_scaled_object_state_error_iff_no_readings
    (triggers : List Trigger) (builders : List ScalerBuilder)
    (oracle : ScalerBuilder → String → ScalerChanResult)
    (oracleOld : ScalerBuilder → String → ScalerStateOld) :
    ((GetScaledObjectState triggers builders oracle).isOk = true ↔
      (scalerResults triggers builders oracle).filterMap
        (fun r => if r.err = none then some r.scalerState else none) ≠ []) ∧
    (∀ st, GetScaledObjectState triggers builders oracle = .ok st →
      st.metricAndTargetValues =
        ((scalerResults triggers builders oracle).filterMap
          (fun r => if r.err = none then some r.scalerState else none)).map
          ScalerState.metricAndTargetValue) ∧
    ((GetScaledObjectStateOld triggers builders oracleOld).2 ≠ none ↔
      ∃ p ∈ builders.enum, (oracleOld p.2 (triggers.getD p.1 default).type).err ≠ none) := by
  refine ⟨?_, ?_, ?_⟩
  · by_cases hc : (scalerResults triggers builders oracle).filterMap
        (fun r => if r.err = none then some r.scalerState else none) = []
    · simp only [GetScaledObjectState, hc]
      simp [Except.isOk, Except.toBool]
    · have hlen : ¬ (((scalerResults triggers builders oracle).filterMap
          (fun r => if r.err = none then some r.scalerState else none)).map
            ScalerState.metricAndTargetValue).length = 0 := by
        simpa [List.length_eq_zero] using hc
      simp only [GetScaledObjectState, hlen, if_false]
      simp [Except.isOk, Except.toBool, hc]
  · intro st hok
    by_cases hc : (((scalerResults triggers builders oracle).filterMap
        (fun r => if r.err = none then some r.scalerState else none)).map
          ScalerState.metricAndTargetValue).length = 0
    · simp [GetScaledObjectState, hc] at hok
    · simp only [GetScaledObjectState, hc, if_false, Except.ok.injEq] at hok
      rw [← hok]
  · have hres : (GetScaledObjectStateOld triggers builders oracleOld).2 =
        (if 0 < ((builders.enum.map
            (fun p => oracleOld p.2 (triggers.getD p.1 default).type)).filterMap
              ScalerStateOld.err).length then
          some "encountered errors while getting metrics"
        else none) := rfl
    rw [hres]
    constructor
    · intro h
      have he : 0 < ((builders.enum.map
          (fun p => oracleOld p.2 (triggers.getD p.1 default).type)).filterMap
            ScalerStateOld.err).length := by
        by_contra he
        rw [if_neg he] at h
        exact h rfl
      rcases List.exists_mem_of_ne_nil _ (List.length_pos.mp he) with ⟨e, he2⟩
      rcases List.mem_filterMap.mp he2 with ⟨r, hr, herr⟩
      rcases List.mem_map.mp hr with ⟨p, hp, hrp⟩
      exact ⟨p, hp, by rw [hrp]; simp [herr]⟩
    · intro h
      rcases h with ⟨p, hp, herr⟩
      have hmem : oracleOld p.2 (triggers.getD p.1 default).type ∈
          builders.enum.map (fun q => oracleOld q.2 (triggers.getD q.1 default).type) :=
        List.mem_map.mpr ⟨p, hp, rfl⟩
      rcases Option.ne_none_iff_exists.mp herr with ⟨e, he⟩
      have hmem2 : e ∈ (builders.enum.map
          (fun p => oracleOld p.2 (triggers.getD p.1 default).type)).filterMap
            ScalerStateOld.err :=
        List.mem_filterMap.mpr ⟨_, hmem, he.symm⟩
      have hlen : 0 < ((builders.enum.map
          (fun p => oracleOld p.2 (triggers.getD p.1 default).type)).filterMap
            ScalerStateOld.err).length :=
        List.length_pos.mpr (List.ne_nil_of_mem hmem2)
      rw [if_pos hlen]
      exact Option.some_ne_none _

/-- C4, witness: two builders, the first failing and the second succeeding:
the call succeeds and the state carries exactly the one successful
reading. -/
theorem get_scaled_object_state_witness :
    (let triggers : List Trigger := [{ type := "cron" }, { type := "gcp-pubsub" }]
     let builders : List ScalerBuilder :=
      [⟨{ triggerIndex := 0 }⟩, ⟨{ triggerIndex := 1 }⟩]
     let oracle : ScalerBuilder → String → ScalerChanResult := fun b tt =>
      if b.scalerConfig.triggerIndex = 0 then
        { triggerIndex := 0, err := some "scaler read failed" }
      else
        { triggerIndex := 1,
          scalerState := { metricAndTargetValue := { triggerType := tt }, isActive := true } }
     ∀ st, GetScaledObjectState triggers builders oracle = .ok st →
       st.metricAndTargetValues =
         ((scalerResults triggers builders oracle).filterMap
           (fun r => if r.err = none then some r.scalerState else none)).map
           ScalerState.metricAndTargetValue) :=
  (get_scaled_object_state_error_iff_no_readings _ _ _
    (fun _ _ => ({} : ScalerStateOld))).2.1

/-! ## Claim C10 -/

/-- Every builder produced from `enumFrom j` originates from a trigger of
the list, with its config fields copied from that trigger and its index. -/
lemma makeBuilderStep_mem (f : Nat → Trigger → Bool) :
    ∀ (l : List Trigger) (j : Nat) (b : ScalerBuilder),
      b ∈ (l.enumFrom j).filterMap (makeBuilderStep f) →
      ∃ k t, l.get? k = some t ∧ b.scalerConfig.triggerIndex = j + k ∧
        b.scalerConfig.triggerType = t.type ∧ b.scalerConfig.triggerName = t.name := by
  intro l
  induction l with
  | nil => intro j b h; simp [List.enumFrom] at h
  | cons hd tl ih =>
    intro j b h
    simp only [List.enumFrom, List.filterMap_cons] at h
    by_cases hf : f j hd
    · simp only [makeBuilderStep, hf, if_true] at h
      rcases List.mem_cons.mp h with h | h
      · exact ⟨0, hd, rfl, by simp [h], by simp [h], by simp [h]⟩
      · rcases ih (j + 1) b h with ⟨k, t, hget, hidx, htype, hname⟩
        exact ⟨k + 1, t, by simpa using hget, by omega, htype, hname⟩
    · simp only [makeBuilderStep, hf, if_false] at h
      rcases ih (j + 1) b h with ⟨k, t, hget, hidx, htype, hname⟩
      exact ⟨k + 1, t, by simpa using hget, by omega, htype, hname⟩

/-- Indices of builders produced from `enumFrom j` are at least `j`. -/
lemma makeBuilderStep_index_ge (f : Nat → Trigger → Bool) :
    ∀ (l : List Trigger) (j : Nat) (b : ScalerBuilder),
      b ∈ (l.enumFrom j).filterMap (makeBuilderStep f) →
      j ≤ b.scalerConfig.triggerIndex := by
  intro l j b h
  rcases makeBuilderStep_mem f l j b h with ⟨k, t, _, hidx, _, _⟩
  omega

/-- Builder indices are produced in strictly increasing order. -/
lemma makeBuilderStep_indices_sorted (f : Nat → Trigger → Bool) :
    ∀ (l : List Trigger) (j : Nat),
      (((l.enumFrom j).filterMap (makeBuilderStep f)).map
        (fun b => b.scalerConfig.triggerIndex)).Pairwise (· < ·) := by
  intro l
  induction l with
  | nil => intro j; simp [List.enumFrom]
  | cons hd tl ih =>
    intro j
    simp only [List.enumFrom, List.filterMap_cons]
    by_cases hf : f j hd
    · simp only [makeBuilderStep, hf, if_true, List.map_cons, List.pairwise_cons]
      refine ⟨?_, by simpa [makeBuilderStep] using ih (j + 1)⟩
      intro x hx
      rcases List.mem_map.mp hx with ⟨b, hb, hxb⟩
      have := makeBuilderStep_index_ge f tl (j + 1) b (by simpa [makeBuilderStep] using hb)
      omega
    · simpa [makeBuilderStep, hf] using ih (j + 1)

/-- C10: every builder returned by `MakeBuilders` carries the index of its
originating trigger (whose type and name its config copies), the trigger
type that `GetScaledObjectState` attributes to it by indexing the trigger
list with that index is the originating trigger's type, and the builders
appear in the order of the trigger list (strictly increasing indices). -/
theorem make_builders_trigger_index_invariant
    (triggers : List Trigger) (factorySucceeds : Nat → Trigger → Bool) :
    (∀ b ∈ (MakeBuilders triggers factorySucceeds).1,
      ∃ t, triggers.get? b.scalerConfig.triggerIndex = some t ∧
        b.scalerConfig.triggerType = t.type ∧ b.scalerConfig.triggerName = t.name ∧
        attributedTriggerType triggers b = t.type) ∧
    (((MakeBuilders triggers factorySucceeds).1.map
      (fun b => b.scalerConfig.triggerIndex)).Pairwise (· < ·)) := by
  constructor
  · intro b hb
    have hb2 : b ∈ (triggers.enumFrom 0).filterMap (makeBuilderStep factorySucceeds) := by
      simpa [MakeBuilders, List.enum] using hb
    rcases makeBuilderStep_mem factorySucceeds triggers 0 b hb2 with ⟨k, t, hget, hidx, htype, hname⟩
    have hidx0 : b.scalerConfig.triggerIndex = k := by omega
    refine ⟨t, by rw [hidx0]; exact hget, htype, hname, ?_⟩
    rw [attributedTriggerType, hidx0, List.getD_eq_getElem?_getD,
      ← List.get?_eq_getElem?, hget]
    simp
  · simpa [MakeBuilders, List.enum] using
      makeBuilderStep_indices_sorted factorySucceeds triggers 0

/-- C10, witness: two triggers with the first factory failing: the single
returned builder carries index 1 and the second trigger's type, and the
state provider attributes that type to it. -/
theorem make_builders_trigger_index_invariant_witness :
    (∃ t, [{ type := "cron" }, ({ type := "gcp-pubsub", name := "pub" } : Trigger)].get?
        (⟨{ triggerName := "pub", triggerType := "gcp-pubsub", triggerIndex := 1 }⟩ :
          ScalerBuilder).scalerConfig.triggerIndex = some t ∧
      "gcp-pubsub" = t.type ∧ "pub" = t.name ∧
      attributedTriggerType [{ type := "cron" }, { type := "gcp-pubsub", name := "pub" }]
        ⟨{ triggerName := "pub", triggerType := "gcp-pubsub", triggerIndex := 1 }⟩ = t.type) :=
  (make_builders_trigger_index_invariant
      [{ type := "cron" }, { type := "gcp-pubsub", name := "pub" }]
      (fun i _ => i ≠ 0)).1 _ (by decide)

/-! ## Claim C6 -/

/-- C6: a builder-factory or state-provider error for one workload removes
exactly that workload from the cycle (the outcome equals the cycle run
without it); an empty aggregate list suppresses the RPC and the cycle
returns success; a non-empty aggregate list is sent as the request and the
RPC result (in particular its error) is the cycle's return value. -/
theorem refresh_metrics_cycle {M E : Type}
    (makeBuilders : CremaScaledObject → Except E (List ScalerBuilder))
    (getState : CremaScaledObject → List ScalerBuilder → Except E ScaledObjectState)
    (toM : CremaScaledObject → ScaledObjectState → M)
    (scaleRPC : List M → Except E Unit) :
    (∀ (tas : List TriggerAuthentication) (pis : Option Int)
        (xs ys : List CremaScaledObject) (so : CremaScaledObject),
      workloadMetrics makeBuilders getState toM so = none →
      RefreshMetrics ⟨⟨xs ++ so :: ys, tas, pis⟩⟩ makeBuilders getState toM scaleRPC =
        RefreshMetrics ⟨⟨xs ++ ys, tas, pis⟩⟩ makeBuilders getState toM scaleRPC) ∧
    (∀ config : CremaConfig,
      cycleAggregates config makeBuilders getState toM = [] →
      (RefreshMetrics config makeBuilders getState toM scaleRPC).request = none ∧
      (RefreshMetrics config makeBuilders getState toM scaleRPC).result = .ok ()) ∧
    (∀ config : CremaConfig,
      cycleAggregates config makeBuilders getState toM ≠ [] →
      (RefreshMetrics config makeBuilders getState toM scaleRPC).request =
        some (cycleAggregates config makeBuilders getState toM) ∧
      (RefreshMetrics config makeBuilders getState toM scaleRPC).result =
        scaleRPC (cycleAggregates config makeBuilders getState toM)) := by
  refine ⟨?_, ?_, ?_⟩
  · intro tas pis xs ys so hwm
    have hagg : cycleAggregates ⟨⟨xs ++ so :: ys, tas, pis⟩⟩ makeBuilders getState toM =
        cycleAggregates ⟨⟨xs ++ ys, tas, pis⟩⟩ makeBuilders getState toM := by
      simp only [cycleAggregates, ToKedaScaledObjects]
      rw [List.filter_append, List.filter_append, List.filter_cons]
      cases hp : hasScaleTarget so with
      | false => simp
      | true => simp [List.filterMap_append, List.filterMap_cons, hwm]
    simp only [RefreshMetrics, hagg]
  · intro config hagg
    simp [RefreshMetrics, hagg]
  · intro config hagg
    have hlen : 0 < (cycleAggregates config makeBuilders getState toM).length :=
      List.length_pos.mpr hagg
    simp [RefreshMetrics, hlen]

/-- C6, witness: two workloads with the failing first one skipped: the
cycle outcome equals that of the cycle without the failing workload. -/
theorem refresh_metrics_cycle_witness :
    RefreshMetrics ⟨⟨[cycleBadWorkload, cycleGoodWorkload], [], none⟩⟩
      cycleMakeBuilders cycleGetState cycleToM cycleRPC =
    RefreshMetrics ⟨⟨[cycleGoodWorkload], [], none⟩⟩
      cycleMakeBuilders cycleGetState cycleToM cycleRPC :=
  (refresh_metrics_cycle cycleMakeBuilders cycleGetState cycleToM cycleRPC).1
    [] none [] [cycleGoodWorkload] cycleBadWorkload (by rfl)

/-! ## Claim C7 -/

/-- The behavior produced by `applyDefaultScalingPolicies`, per direction. -/
lemma applyDefaultScalingPolicies_directions (b : HorizontalPodAutoscalerBehavior) :
    (b.scaleDown = none →
      (applyDefaultScalingPolicies b).scaleDown = some defaultScaleDownRules) ∧
    (∀ r, b.scaleDown = some r →
      (applyDefaultScalingPolicies b).scaleDown =
        some { r with selectPolicy := some (r.selectPolicy.getD .MinChangePolicySelect) }) ∧
    (b.scaleUp = none →
      (applyDefaultScalingPolicies b).scaleUp = some defaultScaleUpRules) ∧
    (∀ r, b.scaleUp = some r →
      (applyDefaultScalingPolicies b).scaleUp =
        some { r with selectPolicy := some (r.selectPolicy.getD .MaxChangePolicySelect) }) := by
  rcases b with ⟨up, down⟩
  refine ⟨?_, ?_, ?_, ?_⟩
  · rintro rfl
    cases up with
    | none => rfl
    | some ru =>
      rcases ru with ⟨w, sel, pol⟩
      cases sel <;> rfl
  · rintro r rfl
    rcases r with ⟨w, sel, pol⟩
    cases up with
    | none => cases sel <;> rfl
    | some ru =>
      rcases ru with ⟨wu, selu, polu⟩
      cases sel <;> cases selu <;> rfl
  · rintro rfl
    cases down with
    | none => rfl
    | some rd =>
      rcases rd with ⟨w, sel, pol⟩
      cases sel <;> rfl
  · rintro r rfl
    rcases r with ⟨w, sel, pol⟩
    cases down with
    | none => cases sel <;> rfl
    | some rd =>
      rcases rd with ⟨wd, seld, pold⟩
      cases sel <;> cases seld <;> rfl

/-- After `applyDefaultScalingStabilizationForScaledObject` the behavior
chain is materialized and holds the defaulted behavior. -/
lemma behaviorChain_after_defaults (so : CremaScaledObject) :
    behaviorChain (applyDefaultScalingStabilizationForScaledObject so) =
      some (applyDefaultScalingPolicies ((behaviorChain so).getD {})) := by
  rcases so with ⟨spec⟩
  cases hadv : spec.advanced with
  | none =>
    simp [applyDefaultScalingStabilizationForScaledObject, behaviorChain, hadv]
  | some adv =>
    rcases adv with ⟨hpa⟩
    cases hpa with
    | none =>
      simp [applyDefaultScalingStabilizationForScaledObject, behaviorChain, hadv]
    | some hpac =>
      rcases hpac with ⟨beh⟩
      cases beh with
      | none =>
        simp [applyDefaultScalingStabilizationForScaledObject, behaviorChain, hadv]
      | some b =>
        simp [applyDefaultScalingStabilizationForScaledObject, behaviorChain, hadv]

/-- The scale-down rules through the chain agree with the collapsed
behavior. -/
lemma configuredScaleDown_eq_chain (so : CremaScaledObject) :
    ((behaviorChain so).getD {}).scaleDown = configuredScaleDown so := by
  cases h : behaviorChain so <;> simp [configuredScaleDown, h]

/-- The scale-up rules through the chain agree with the collapsed
behavior. -/
lemma configuredScaleUp_eq_chain (so : CremaScaledObject) :
    ((behaviorChain so).getD {}).scaleUp = configuredScaleUp so := by
  cases h : behaviorChain so <;> simp [configuredScaleUp, h]

/-- C7, counterexample: a scaled object supplying scale-down rules without
a select policy does not keep its supplied rules verbatim: the defaulting
overwrites the absent select policy with `Min`. -/
theorem apply_defaults_overwrites_supplied_select_cex :
    configuredScaleDown suppliedDownObject = some suppliedDownRules ∧
    configuredScaleDown (applyDefaultScalingStabilizationForScaledObject suppliedDownObject) ≠
      some suppliedDownRules := by
  constructor
  · rfl
  · intro h
    simp [applyDefaultScalingStabilizationForScaledObject, configuredScaleDown,
      behaviorChain, applyDefaultScalingPolicies, suppliedDownObject, suppliedDownRules] at h

/-- C7, amended: an absent scale-down direction receives
`{300 s, [Percent 100/15 s], Min}` and an absent scale-up direction
receives `{0 s, [Percent 100/15 s, Instances 4/15 s], Max}` (so with one
direction supplied the other still receives its defaults); a supplied
direction keeps its window and policies, and keeps its select policy when
one is set, but a supplied direction without a select policy has it
defaulted (`Min` for scale-down, `Max` for scale-up). -/
theorem apply_defaults_fills_absent_directions (so : CremaScaledObject) :
    (configuredScaleDown so = none →
      configuredScaleDown (applyDefaultScalingStabilizationForScaledObject so) =
        some defaultScaleDownRules) ∧
    (∀ r, configuredScaleDown so = some r →
      configuredScaleDown (applyDefaultScalingStabilizationForScaledObject so) =
        some { r with selectPolicy := some (r.selectPolicy.getD .MinChangePolicySelect) }) ∧
    (configuredScaleUp so = none →
      configuredScaleUp (applyDefaultScalingStabilizationForScaledObject so) =
        some defaultScaleUpRules) ∧
    (∀ r, configuredScaleUp so = some r →
      configuredScaleUp (applyDefaultScalingStabilizationForScaledObject so) =
        some { r with selectPolicy := some (r.selectPolicy.getD .MaxChangePolicySelect) }) := by
  have hdown : configuredScaleDown (applyDefaultScalingStabilizationForScaledObject so) =
      (applyDefaultScalingPolicies ((behaviorChain so).getD {})).scaleDown := by
    simp [configuredScaleDown, behaviorChain_after_defaults so]
  have hup : configuredScaleUp (applyDefaultScalingStabilizationForScaledObject so) =
      (applyDefaultScalingPolicies ((behaviorChain so).getD {})).scaleUp := by
    simp [configuredScaleUp, behaviorChain_after_defaults so]
  refine ⟨?_, ?_, ?_, ?_⟩
  · intro h
    rw [hdown]
    exact (applyDefaultScalingPolicies_directions _).1
      (by rw [configuredScaleDown_eq_chain so]; exact h)
  · intro r h
    rw [hdown]
    exact (applyDefaultScalingPolicies_directions _).2.1 r
      (by rw [configuredScaleDown_eq_chain so]; exact h)
  · intro h
    rw [hup]
    exact (applyDefaultScalingPolicies_directions _).2.2.1
      (by rw [configuredScaleUp_eq_chain so]; exact h)
  · intro r h
    rw [hup]
    exact (applyDefaultScalingPolicies_directions _).2.2.2 r
      (by rw [configuredScaleUp_eq_chain so]; exact h)

/-- C7, witness: a scaled object supplying only complete scale-up rules
keeps them and receives the scale-down defaults. -/
theorem apply_defaults_fills_absent_directions_witness :
    configuredScaleDown (applyDefaultScalingStabilizationForScaledObject suppliedUpObject) =
      some defaultScaleDownRules ∧
    configuredScaleUp (applyDefaultScalingStabilizationForScaledObject suppliedUpObject) =
      some { suppliedUpRules with
        selectPolicy := some (suppliedUpRules.selectPolicy.getD .MaxChangePolicySelect) } :=
  ⟨(apply_defaults_fills_absent_directions suppliedUpObject).1 rfl,
   (apply_defaults_fills_absent_directions suppliedUpObject).2.2.2 suppliedUpRules rfl⟩

/-! ## Claim C9 -/

/-- The authentication loop returns exactly the accumulated names followed
by the names of the processed records. -/
lemma checkTriggerAuthentications_names :
    ∀ (tas : List TriggerAuthentication) (acc res : List String),
      checkTriggerAuthentications acc tas = .ok res →
      res = acc ++ tas.map TriggerAuthentication.name := by
  intro tas
  induction tas with
  | nil =>
    intro acc res h
    simp only [checkTriggerAuthentications, Except.ok.injEq] at h
    simp [← h]
  | cons ta rest ih =>
    intro acc res h
    simp only [checkTriggerAuthentications] at h
    cases hv : validateTriggerAuthentication ta with
    | error e => rw [hv] at h; exact absurd h (by simp)
    | ok u =>
      rw [hv] at h
      by_cases hdup : acc.contains ta.name
      · rw [if_pos hdup] at h; exact absurd h (by simp)
      · rw [if_neg hdup] at h
        have := ih (acc ++ [ta.name]) res h
        simp [this]

/-- Every scaled object of a successfully checked list validates. -/
lemma checkScaledObjects_ok :
    ∀ (sos : List CremaScaledObject) (auths : List String),
      checkScaledObjects auths sos = .ok () →
      ∀ so ∈ sos, validateScaledObject so auths = .ok () := by
  intro sos
  induction sos with
  | nil => intro auths _ so hso; simp at hso
  | cons hd tl ih =>
    intro auths h so hso
    simp only [checkScaledObjects] at h
    cases hv : validateScaledObject hd auths with
    | error e => rw [hv] at h; exact absurd h (by simp)
    | ok u =>
      rcases List.mem_cons.mp hso with rfl | hso2
      · rw [hv]
      · rw [hv] at h
        exact ih auths h so hso2

/-- A successful trigger check forces every non-empty authentication
reference to resolve in the name set. -/
lemma validateTriggers_ok :
    ∀ (ts : List Trigger) (auths : List String),
      validateTriggers auths ts = .ok () →
      ∀ t ∈ ts, ∀ r, t.authenticationRef = some r → r.name ≠ "" →
        auths.contains r.name = true := by
  intro ts
  induction ts with
  | nil => intro auths _ t ht; simp at ht
  | cons hd tl ih =>
    intro auths h t ht r hr hname
    simp only [validateTriggers] at h
    by_cases htype : hd.type = ""
    · rw [if_pos htype] at h; exact absurd h (by simp)
    · rw [if_neg htype] at h
      rcases List.mem_cons.mp ht with rfl | ht2
      · rw [hr] at h
        simp only at h
        by_cases hc : auths.contains r.name = true
        · exact hc
        · have : r.name ≠ "" ∧ ¬ auths.contains r.name := ⟨hname, by simpa using hc⟩
          rw [if_pos this] at h
          exact absurd h (by simp)
      · cases har : hd.authenticationRef with
        | none =>
          rw [har] at h
          simp only at h
          exact ih auths h t ht2 r hr hname
        | some r0 =>
          rw [har] at h
          simp only at h
          by_cases hc0 : r0.name ≠ "" ∧ ¬ auths.contains r0.name
          · rw [if_pos hc0] at h; exact absurd h (by simp)
          · rw [if_neg hc0] at h; exact ih auths h t ht2 r hr hname

/-- A successful scaled-object validation passes its triggers check. -/
lemma validateScaledObject_ok_triggers (so : CremaScaledObject) (auths : List String)
    (h : validateScaledObject so auths = .ok ()) :
    validateTriggers auths so.spec.triggers = .ok () := by
  simp only [validateScaledObject] at h
  split at h
  · exact absurd h (by simp)
  · split at h
    · exact absurd h (by simp)
    · split at h
      · exact absurd h (by simp)
      · exact h

/-- All triggers with absent or empty references pass the trigger check. -/
lemma validateTriggers_skips_empty_refs :
    ∀ (ts : List Trigger) (auths : List String),
      (∀ t ∈ ts, t.type ≠ "") →
      (∀ t ∈ ts, ∀ r, t.authenticationRef = some r → r.name = "") →
      validateTriggers auths ts = .ok () := by
  intro ts
  induction ts with
  | nil => intro auths _ _; rfl
  | cons hd tl ih =>
    intro auths htype href
    have h1 : ¬ hd.type = "" := htype hd (List.mem_cons_self hd tl)
    simp only [validateTriggers, if_neg h1]
    have htl := ih auths (fun t ht => htype t (List.mem_cons_of_mem hd ht))
      (fun t ht => href t (List.mem_cons_of_mem hd ht))
    cases har : hd.authenticationRef with
    | none => exact htl
    | some r =>
      have hempty : r.name = "" := href hd (List.mem_cons_self hd tl) r har
      simp [hempty, htl]

/-- C9: if `ValidateConfig` succeeds then every trigger's non-empty
authentication-reference name matches the metadata name of some declared
trigger authentication (so a dangling non-empty reference always produces
an error); and a scaled object that passes the structural checks and whose
triggers carry no reference, or only empty reference names, validates
against any name set. -/
theorem validate_config_auth_refs :
    (∀ config : CremaConfig, ValidateConfig config = .ok () →
      ∀ so ∈ config.spec.scaledObjects, ∀ t ∈ so.spec.triggers, ∀ r,
        t.authenticationRef = some r → r.name ≠ "" →
        r.name ∈ config.spec.triggerAuthentications.map TriggerAuthentication.name) ∧
    (∀ (so : CremaScaledObject) (auths : List String),
      (match so.spec.scaleTargetRef with | none => False | some r => r.name ≠ "") →
      so.spec.pollingInterval = none →
      so.spec.triggers.length ≠ 0 →
      (∀ t ∈ so.spec.triggers, t.type ≠ "") →
      (∀ t ∈ so.spec.triggers, ∀ r, t.authenticationRef = some r → r.name = "") →
      validateScaledObject so auths = .ok ()) := by
  constructor
  · intro config h so hso t ht r hr hname
    simp only [ValidateConfig] at h
    by_cases hempty : config.spec.scaledObjects.length = 0
    · rw [if_pos hempty] at h; exact absurd h (by simp)
    · rw [if_neg hempty] at h
      cases hauth : checkTriggerAuthentications [] config.spec.triggerAuthentications with
      | error e => rw [hauth] at h; exact absurd h (by simp)
      | ok auths =>
        rw [hauth] at h
        have hnames : auths = config.spec.triggerAuthentications.map TriggerAuthentication.name := by
          simpa using checkTriggerAuthentications_names _ [] auths hauth
        have hso2 := checkScaledObjects_ok _ auths h so hso
        have ht2 := validateTriggers_ok _ auths
          (validateScaledObject_ok_triggers so auths hso2) t ht r hr hname
        rw [hnames] at ht2
        simpa using List.mem_of_elem_eq_true ht2
  · intro so auths h1 h2 h3 h4 h5
    have hst : (match so.spec.scaleTargetRef with
        | none => true
        | some r => decide (r.name = "")) = false := by
      cases hsr : so.spec.scaleTargetRef with
      | none => rw [hsr] at h1; exact absurd h1 (by simp)
      | some r =>
        rw [hsr] at h1
        simp only at h1
        simp [h1]
    simp only [validateScaledObject, hst, Bool.false_eq_true, if_false]
    rw [if_neg (by simp [h2]), if_neg h3]
    exact validateTriggers_skips_empty_refs _ auths h4 h5

/-- C9, witness: in a config declaring one authentication and one scaled
object referencing it by name, the reference resolves; and a trigger with
an empty reference name validates against the empty name set. -/
theorem validate_config_auth_refs_witness :
    ("my-auth" ∈ refConfig.spec.triggerAuthentications.map TriggerAuthentication.name) ∧
    validateScaledObject emptyRefObject [] = .ok () := by
  constructor
  · exact validate_config_auth_refs.1 refConfig (by rfl) refObject (by simp [refConfig])
      refTrigger (by simp [refObject]) { name := "my-auth" } rfl (by simp)
  · exact validate_config_auth_refs.2 emptyRefObject [] (by simp [emptyRefObject]) rfl
      (by simp [emptyRefObject])
      (by intro t ht; simp [emptyRefObject] at ht; simp [ht])
      (by
        intro t ht r hr
        simp [emptyRefObject] at ht
        rw [ht] at hr
        simp only [Option.some.injEq] at hr
        rw [← hr])

end Crema
